import Mathlib

/-!
Verification of the authorization/session component of `fluminurs`
(`src/authorization.rs`): a shallow embedding of the login/renew/callback
protocol, the cookie jar, and the HTTP exchange layer, together with
theorems settling the specification claims.

Modelling conventions:
* Rust `String` is Lean `String`; character-level workers use `List Char`
  (`String.data`).
* `HashMap<String, String>` is an association list with upsert insertion
  (`hmInsert`) and first-match lookup (`hmGet`); iteration order is the
  list order.
* Network interaction is an environment `List Exchange` consumed one
  exchange per HTTP send; each exchange is a transport/client failure or a
  `Response` whose header fields carry the outcomes of the external
  parsers (URL parsing of `Location`, UTF-8 decoding of header bytes,
  JSON/HTML scraping of bodies).
* A Rust `Result::Err` is `RunRes.err`; a Rust process abort via
  `expect`/`unwrap`/index-out-of-map is a distinct outcome `RunRes.panicRes`,
  carrying the state at the moment of the abort.
-/

set_option autoImplicit false
set_option maxRecDepth 8000

namespace Fluminurs

/-! ## Constants (from the top of `authorization.rs`) -/

def AUTH_BASE_URL : String := "https://luminus.nus.edu.sg"
def DISCOVERY_PATH : String := "/v2/auth/.well-known/openid-configuration"
def CLIENT_ID : String := "verso"
def SCOPE : String :=
  "profile email role openid lms.read calendar.read lms.delete lms.write calendar.write gradebook.write offline_access"
def RESPONSE_TYPE : String := "id_token token code"
def REDIRECT_URI : String := "https://luminus.nus.edu.sg/auth/callback"

/-! ## Character-list helpers -/

/-- Split a character list at the first occurrence of `sep`; `none` when
`sep` does not occur. Models `str::find` + slicing. -/
def splitFirst (sep : Char) : List Char → Option (List Char × List Char)
  | [] => none
  | c :: r =>
    if c = sep then some ([], r)
    else
      match splitFirst sep r with
      | none => none
      | some (a, b) => some (c :: a, b)

/-- Split a character list at every occurrence of `sep` (the way
`str::split` does: `n` separators yield `n+1` pieces). -/
def splitAll (sep : Char) : List Char → List (List Char)
  | [] => [[]]
  | c :: r =>
    if c = sep then [] :: splitAll sep r
    else
      match splitAll sep r with
      | [] => [[c]]
      | p :: ps => (c :: p) :: ps

/-- Characters removed by Rust's `str::trim` (modelled for the ASCII
whitespace the protocol can produce). -/
def isWs (c : Char) : Bool := c = ' ' || c = '\t' || c = '\n' || c = '\r'

/-- Model of `str::trim`. -/
def trimChars (l : List Char) : List Char :=
  ((l.dropWhile isWs).reverse.dropWhile isWs).reverse

/-- The prefix of a character list up to (excluding) the first `sep`. -/
def takeUntil (sep : Char) : List Char → List Char
  | [] => []
  | c :: r => if c = sep then [] else c :: takeUntil sep r

/-! ## The cookie jar (`cookies: HashMap<String, String>`) -/

/-- `HashMap::insert`: upsert, last write wins. -/
def hmInsert : List (String × String) → String → String → List (String × String)
  | [], k, v => [(k, v)]
  | (k', v') :: rest, k, v =>
    if k' = k then (k, v) :: rest else (k', v') :: hmInsert rest k v

/-- `HashMap::get` / `Index` lookup. -/
def hmGet : List (String × String) → String → Option String
  | [], _ => none
  | (k', v') :: rest, k => if k' = k then some v' else hmGet rest k

@[simp] theorem hmGet_nil (k : String) : hmGet [] k = none := rfl

theorem hmGet_hmInsert_self (jar : List (String × String)) (k v : String) :
    hmGet (hmInsert jar k v) k = some v := by
  induction jar with
  | nil => simp [hmInsert, hmGet]
  | cons p rest ih =>
    obtain ⟨k', v'⟩ := p
    by_cases h : k' = k
    · simp [hmInsert, hmGet, h]
    · simp [hmInsert, hmGet, h, ih]

theorem hmGet_hmInsert_ne (jar : List (String × String)) (k k' v : String)
    (h : k' ≠ k) : hmGet (hmInsert jar k' v) k = hmGet jar k := by
  induction jar with
  | nil => simp [hmInsert, hmGet, h]
  | cons p rest ih =>
    obtain ⟨k₀, v₀⟩ := p
    by_cases h0 : k₀ = k'
    · simp [hmInsert, hmGet, h0, h]
    · by_cases h1 : k₀ = k
      · simp [hmInsert, hmGet, h0, h1, Ne.symm h]
      · simp [hmInsert, hmGet, h0, h1, ih]

/-! ## Cookie parsing (`cookie::Cookie::parse` + `name_value`)

`add_cookie` feeds the raw `Set-Cookie` value to `cookie::Cookie::parse`
and keeps only the name/value pair.  The crate takes the segment before
the first `;`, splits it at the first `=` (failing when there is none),
trims both sides, and fails on an empty name.  (Value quote-stripping
is not modelled; no input of interest is quoted.) -/

def parseCookiePair (s : String) : Option (String × String) :=
  let seg := takeUntil ';' s.data
  match splitFirst '=' seg with
  | none => none
  | some (n, v) =>
    let n := trimChars n
    let v := trimChars v
    if n = [] then none else some (n.asString, v.asString)

/-- `Authorization::add_cookie`, as a pure jar transformer.  `none` models
the `expect("Unable to parse cookie")` panic. -/
def add_cookie (jar : List (String × String)) (header : String) :
    Option (List (String × String)) :=
  match parseCookiePair header with
  | none => none
  | some (n, v) => some (hmInsert jar n v)

/-- Folding `add_cookie` over a sequence of raw `Set-Cookie` header values
in arrival order (the per-response loop in `http_get`/`http_post`). -/
def mergeCookies (jar : List (String × String)) :
    List String → Option (List (String × String))
  | [] => some jar
  | h :: rest =>
    match add_cookie jar h with
    | none => none
    | some jar' => mergeCookies jar' rest

/-- `Authorization::generate_cookie_header`: renders the jar as
`name1=value1; name2=value2; ` (concatenation of `format!("{}={}; ", k, v)`
in iteration order). -/
def generate_cookie_header (jar : List (String × String)) : String :=
  (jar.foldr (fun p acc => p.1.data ++ '=' :: p.2.data ++ ';' :: ' ' :: acc) []).asString

/-! ## Re-parsing a rendered `Cookie` header (spec side, for claim C7)

The spec reads the rendered header back as a set of `name=value` pairs:
chunks are separated by the two-character separator `"; "`, and each chunk
splits at its first `=`. -/

/-- Whether the two-character sequence `"; "` occurs in the list. -/
def hasSemiSp : List Char → Bool
  | [] => false
  | c :: r => (c = ';' && r.head? = some ' ') || hasSemiSp r

/-- The `name=value` pairs contributed by one `"; "`-delimited chunk:
one pair when the chunk splits at a first `=`, none otherwise. -/
def chunkPair (chunk : List Char) : List (String × String) :=
  match splitFirst '=' chunk with
  | none => []
  | some (n, v) => [(n.asString, v.asString)]

/-- The spec-side re-parser of a rendered `Cookie` header value: scan for
each occurrence of the separator `"; "`, and contribute the chunk before
it; a trailing chunk with no terminating separator is incomplete and
contributes nothing. -/
def reparseGo (acc : List Char) : List Char → List (String × String)
  | [] => []
  | [_] => []
  | c :: d :: r =>
    if c = ';' ∧ d = ' ' then chunkPair acc ++ reparseGo [] r
    else reparseGo (acc ++ [c]) (d :: r)

/-- Re-parse a `Cookie` header value as a list of `name=value` pairs. -/
def reparsePairs (s : String) : List (String × String) :=
  reparseGo [] s.data

/-! ## URLs, headers, responses, and the network environment

A `Url` keeps only what the protocol inspects: an identifying raw string
and the optional fragment (`Url::fragment`).  URL joining and query-pair
appending are modelled as string concatenation on `raw`, since the
resulting URL is only ever used as an opaque request target. -/

structure Url where
  raw : String
  fragment : Option String
deriving DecidableEq, Repr

/-- The outcome of reading and parsing a `Location` header, as supplied by
the environment: absent, non-UTF-8 bytes (`to_str` fails), a string that
`Url::parse` rejects, or a parsed URL. -/
inductive LocHeader
  | absent
  | badBytes
  | badUrl
  | url (u : Url)
deriving DecidableEq, Repr

/-- A raw `Set-Cookie` header value: either non-UTF-8 bytes (`to_str`
fails) or a text value handed to `add_cookie`. -/
inductive SetCookieH
  | badBytes
  | text (s : String)
deriving DecidableEq, Repr

/-- Outcome of decoding a discovery response body as `Discovery` JSON and
parsing its `authorization_endpoint` (`auth_endpoint_uri`). -/
inductive DiscRes
  | badJson
  | badUrl
  | endpoint (u : Url)
deriving DecidableEq, Repr

/-- The scraped anti-forgery token (`Xsrf`). -/
structure Xsrf where
  name : String
  value : String
deriving DecidableEq, Repr

/-- The decoded `modelJson` blob (`LoginInfo`). -/
structure LoginInfo where
  antiForgery : Xsrf
  loginUrl : String
deriving DecidableEq, Repr

/-- Outcome of reading a login-page body as text, locating the `modelJson`
element, HTML-entity-decoding it and JSON-decoding it (`auth_login_info`),
one constructor per failure point in the source. -/
inductive ScrapeRes
  | textFail
  | noModelJson
  | badEntities
  | badJson
  | info (li : LoginInfo)
deriving DecidableEq, Repr

/-- An HTTP response as the protocol observes it.  Body interpretations
(`discovery`, `scrape`) are supplied by the environment; each response is
read by at most one of the two. -/
structure Response where
  status : Nat
  location : LocHeader
  setCookies : List SetCookieH
  discovery : DiscRes
  scrape : ScrapeRes
deriving DecidableEq, Repr

/-- `StatusCode::is_redirection`. -/
def isRedirection (status : Nat) : Bool := 300 ≤ status && status ≤ 399

/-- One network exchange as decided by the environment: the client build
fails (`build_client` error), the send fails (transport error), or a
response arrives. -/
inductive Exchange
  | clientFail
  | sendFail
  | respond (r : Response)
deriving DecidableEq, Repr

/-- A request as emitted by the component: its target and the `Cookie`
header attached to it (`none` = no cookie header at all). -/
structure Request where
  url : Url
  cookieHdr : Option String
deriving DecidableEq, Repr

/-- The mutable `Authorization` struct: `jwt` and the cookie jar. -/
structure Session where
  jwt : Option String
  cookies : List (String × String)
deriving DecidableEq, Repr

/-- `Authorization::new()`. -/
def Session.new : Session := { jwt := none, cookies := [] }

/-- The full machine state threaded through a call: the session, the
remaining environment, and the trace of requests emitted so far. -/
structure St where
  sess : Session
  env : List Exchange
  trace : List Request
deriving DecidableEq, Repr

/-- The outcome of a call: Rust `Ok`, Rust `Err`, or a process panic
(`expect` / map-index failure). -/
inductive RunRes (α : Type)
  | ok (a : α)
  | err (msg : String)
  | panicRes (msg : String)
deriving DecidableEq, Repr

/-- The state monad of the component: every operation transforms the
state and produces an outcome; `err` and `panicRes` abort the rest of the
call (the `?` operator, resp. stack unwinding). -/
def M (α : Type) : Type := St → RunRes α × St

def M.pure {α : Type} (a : α) : M α := fun st => (.ok a, st)

def M.err {α : Type} (msg : String) : M α := fun st => (.err msg, st)

def M.bind {α β : Type} (x : M α) (f : α → M β) : M β := fun st =>
  match x st with
  | (.ok a, st') => f a st'
  | (.err m, st') => (.err m, st')
  | (.panicRes m, st') => (.panicRes m, st')

/-- Lift a pure `Result` (e.g. `get_redirect_url`) into the monad. -/
def M.liftE {α : Type} : Except String α → M α
  | .ok a => M.pure a
  | .error m => M.err m

/-- Pop the next exchange; an exhausted environment behaves as a
transport failure. -/
def popEnv : List Exchange → Exchange × List Exchange
  | [] => (.sendFail, [])
  | e :: r => (e, r)

/-- Append an emitted request to the trace. -/
def pushTrace (st : St) (req : Request) : St :=
  { st with trace := st.trace ++ [req] }

/-! ## The protocol functions -/

/-- `full_auth_url`: join a path onto the fixed base origin (join modelled
as concatenation; result used only as an opaque request target). -/
def full_auth_url (path : String) : Url :=
  { raw := AUTH_BASE_URL ++ path, fragment := none }

/-- The fixed discovery URL (`full_auth_url(DISCOVERY_PATH)`). -/
def discoveryUrl : Url := full_auth_url DISCOVERY_PATH

/-- `add_auth_params`: append the fixed query parameters plus `state` and
`nonce`.  The random hex values are abstracted to empty placeholders — no
claim depends on them. -/
def add_auth_params (u : Url) : Url :=
  { u with raw := u.raw ++ "?state=&nonce=&client_id=" ++ CLIENT_ID
      ++ "&scope=" ++ SCOPE ++ "&response_type=" ++ RESPONSE_TYPE
      ++ "&redirect_uri=" ++ REDIRECT_URI }

/-- Whether `HeaderValue::from_str` accepts the string (no control bytes
other than horizontal tab); `add_cookie_header` panics otherwise. -/
def headerOk (s : String) : Bool :=
  s.data.all fun c => c.toNat = 9 || (32 ≤ c.toNat && c.toNat ≠ 127)

/-- `auth_endpoint_uri`: one plain `reqwest::get` of the discovery
document — a fresh default client, so NO `Cookie` header is attached, the
response's `Set-Cookie` headers are never read, and the session is not in
scope at all.  Every failure is an `expect` panic in the source. -/
def auth_endpoint_uri : M Url := fun st =>
  match popEnv st.env with
  | (.clientFail, rest) =>
    (.panicRes "Failed to HTTP GET the discovery path", { st with env := rest })
  | (.sendFail, rest) =>
    (.panicRes "Failed to HTTP GET the discovery path",
      pushTrace { st with env := rest } { url := discoveryUrl, cookieHdr := none })
  | (.respond r, rest) =>
    let st1 : St :=
      pushTrace { st with env := rest } { url := discoveryUrl, cookieHdr := none }
    match r.discovery with
    | .badJson => (.panicRes "Unable to deserialize discovery json", st1)
    | .badUrl => (.panicRes "Unable to parse discovery url", st1)
    | .endpoint u => (.ok (add_auth_params u), st1)

/-- How the per-response `Set-Cookie` loop in `http_get`/`http_post`
can end. -/
inductive CookieFail
  | badBytes
  | parseFail
deriving DecidableEq, Repr

/-- The `for c in response.headers().get_all(SET_COOKIE)` loop: fold the
headers into the jar in arrival order; on a non-UTF-8 value the loop
aborts with an `Err` (cookies added so far kept), on an unparseable value
`add_cookie` panics. -/
def applyCookies (jar : List (String × String)) :
    List SetCookieH → List (String × String) × Option CookieFail
  | [] => (jar, none)
  | .badBytes :: _ => (jar, some .badBytes)
  | .text h :: rest =>
    match add_cookie jar h with
    | none => (jar, some .parseFail)
    | some jar' => applyCookies jar' rest

/-- The common body of `http_get` and `http_post`: build a client
(redirects disabled), attach the jar as a `Cookie` header
(`add_cookie_header`, panicking on an invalid header value), send, and
fold the response's `Set-Cookie` headers back into the jar. -/
def httpSend (url : Url) : M Response := fun st =>
  match popEnv st.env with
  | (.clientFail, rest) => (.err "Unable to create HTTP client", { st with env := rest })
  | (.sendFail, rest) =>
    if headerOk (generate_cookie_header st.sess.cookies) then
      (.err "Failed HTTP request",
        pushTrace { st with env := rest }
          { url := url, cookieHdr := some (generate_cookie_header st.sess.cookies) })
    else (.panicRes "Unable to add cookie header", { st with env := rest })
  | (.respond r, rest) =>
    if headerOk (generate_cookie_header st.sess.cookies) then
      let st1 : St :=
        pushTrace { st with env := rest }
          { url := url, cookieHdr := some (generate_cookie_header st.sess.cookies) }
      match applyCookies st1.sess.cookies r.setCookies with
      | (jar, none) => (.ok r, { st1 with sess := { st1.sess with cookies := jar } })
      | (jar, some .badBytes) =>
        (.err "Unable to read set-cookie header",
          { st1 with sess := { st1.sess with cookies := jar } })
      | (jar, some .parseFail) =>
        (.panicRes "Unable to parse cookie",
          { st1 with sess := { st1.sess with cookies := jar } })
    else (.panicRes "Unable to add cookie header", { st with env := rest })

/-- `Authorization::http_get`. -/
def http_get (url : Url) : M Response := httpSend url

/-- `Authorization::http_post`.  The form body does not influence the
modelled environment, so it is carried but unused. -/
def http_post (url : Url) (_params : List (String × String)) : M Response := httpSend url

/-- `get_redirect_url`: read, UTF-8-decode and URL-parse the `Location`
header of a response. -/
def get_redirect_url (r : Response) : Except String Url :=
  match r.location with
  | .absent => .error "Invalid response from server, expected redirection"
  | .badBytes => .error "Unable to read location header"
  | .badUrl => .error " Unable to parse the url of location"
  | .url u => .ok u

/-- `Xsrf::build_login_params`: the login form body (a `HashMap`, so the
anti-forgery field can collide with `username`/`password`). -/
def build_login_params (x : Xsrf) (username password : String) :
    List (String × String) :=
  hmInsert (hmInsert (hmInsert [] "username" username) "password" password) x.name x.value

/-- Model of `serde_urlencoded::from_str::<HashMap<String, String>>` on a
URL fragment: split on `&`, drop empty pieces, split each piece at its
first `=` (a piece with no `=` is a key with empty value), collect into a
map with last-write-wins.  Percent-decoding is abstracted away (no input
of interest is percent-encoded); the decoder is total, matching the
crate, but the `Option` keeps the source's error branch visible. -/
def parseFragment (s : String) : Option (List (String × String)) :=
  some (((splitAll '&' s.data).filter (fun p => p ≠ [])).foldl
    (fun m piece =>
      match splitFirst '=' piece with
      | none => hmInsert m piece.asString ""
      | some (k, v) => hmInsert m k.asString v.asString) [])

/-- `Authorization::handle_callback`: require a fragment, decode it,
store `id_token` into `jwt` (a panicking map index when absent), then
prune the jar to the single `idsrv` cookie (a panicking map index when
absent — note `jwt` has already been overwritten at that point). -/
def handle_callback (cb : Url) : M Bool := fun st =>
  match cb.fragment with
  | none => (.err "Invalid callback", st)
  | some frag =>
    match parseFragment frag with
    | none => (.err "Invalid callback", st)
    | some m =>
      match hmGet m "id_token" with
      | none => (.panicRes "no entry found for key", st)
      | some tok =>
        let st1 : St := { st with sess := { st.sess with jwt := some tok } }
        match hmGet st1.sess.cookies "idsrv" with
        | none => (.panicRes "no entry found for key", st1)
        | some idv =>
          (.ok true, { st1 with sess := { st1.sess with cookies := [("idsrv", idv)] } })

/-- `Authorization::auth_login_info`: discovery, two redirect hops, and
the scrape of the `modelJson` blob. -/
def auth_login_info : M LoginInfo :=
  M.bind auth_endpoint_uri fun auth_url =>
  M.bind (http_get auth_url) fun r1 =>
  M.bind (M.liftE (get_redirect_url r1)) fun second_url =>
  M.bind (http_get second_url) fun r2 =>
  match r2.scrape with
  | .textFail => M.err "Unable to read HTTP response body"
  | .noModelJson => M.err "No JSON was sent"
  | .badEntities => M.err "Unable to decode HTML entities"
  | .badJson => M.err "Unable to decode JSON"
  | .info li => M.pure li

/-- `Authorization::login`. -/
def login (username password : String) : M Bool :=
  M.bind auth_login_info fun li =>
  M.bind (http_post (full_auth_url li.loginUrl)
      (build_login_params li.antiForgery username password)) fun first =>
  if isRedirection first.status then
    M.bind (M.liftE (get_redirect_url first)) fun second_url =>
    M.bind (http_get second_url) fun r2 =>
    M.bind (M.liftE (get_redirect_url r2)) fun cb =>
    handle_callback cb
  else M.err "Invalid credentials"

/-- `Authorization::renew`: precondition check on `jwt`, then discovery,
one GET, and the shared callback handler. -/
def renew : M Bool := fun st =>
  if st.sess.jwt = none then (.err "Please login first.", st)
  else
    (M.bind auth_endpoint_uri fun auth_url =>
     M.bind (http_get auth_url) fun r =>
     M.bind (M.liftE (get_redirect_url r)) fun cb =>
     handle_callback cb) st

/-! ## Proof infrastructure: outcome inversion and preservation lemmas -/

/-- `x` never changes the session's `jwt`, whatever the outcome. -/
def JwtPres {α : Type} (x : M α) : Prop :=
  ∀ st : St, ((x st).2).sess.jwt = st.sess.jwt

/-- `x` leaves the session's `jwt` unchanged whenever it returns `Err`. -/
def JwtErrPres {α : Type} (x : M α) : Prop :=
  ∀ (st : St) (m : String) (st' : St), x st = (.err m, st') → st'.sess.jwt = st.sess.jwt

theorem JwtPres.toErrPres {α : Type} {x : M α} (h : JwtPres x) : JwtErrPres x := by
  intro st m st' hx
  have hj := h st
  rw [hx] at hj
  exact hj

theorem jwtPres_pure {α : Type} (a : α) : JwtPres (M.pure a) := fun _ => rfl

theorem jwtPres_err {α : Type} (m : String) : JwtPres (M.err m : M α) := fun _ => rfl

theorem jwtPres_liftE {α : Type} (e : Except String α) : JwtPres (M.liftE e) := by
  cases e <;> intro st <;> rfl

theorem jwtErrPres_err {α : Type} (m : String) : JwtErrPres (M.err m : M α) := by
  intro st m' st' h
  obtain ⟨-, h2⟩ := Prod.mk.injEq .. ▸ h
  rw [← h2]

theorem jwtPres_bind {α β : Type} {x : M α} {f : α → M β}
    (hx : JwtPres x) (hf : ∀ a, JwtPres (f a)) : JwtPres (M.bind x f) := by
  intro st
  have h1 : ((x st).2).sess.jwt = st.sess.jwt := hx st
  unfold M.bind
  rcases hres : x st with ⟨res, st₁⟩
  rw [hres] at h1
  cases res with
  | ok a => exact (hf a st₁).trans h1
  | err m => exact h1
  | panicRes m => exact h1

theorem jwtErrPres_bind {α β : Type} {x : M α} {f : α → M β}
    (hx : JwtPres x) (hf : ∀ a, JwtErrPres (f a)) : JwtErrPres (M.bind x f) := by
  intro st m st' h
  have h1 : ((x st).2).sess.jwt = st.sess.jwt := hx st
  unfold M.bind at h
  rcases hres : x st with ⟨res, st₁⟩
  rw [hres] at h h1
  cases res with
  | ok a => exact (hf a st₁ m st' h).trans h1
  | err m' =>
    obtain ⟨h2, h3⟩ := Prod.mk.injEq .. ▸ h
    subst h3
    exact h1
  | panicRes m' => simp at h

/-- Inverting a successful `bind`: the first action succeeded and the
continuation succeeded from the intermediate state. -/
theorem M.bind_eq_ok {α β : Type} {x : M α} {f : α → M β} {st : St} {b : β} {st₂ : St}
    (h : M.bind x f st = (.ok b, st₂)) :
    ∃ a st₁, x st = (.ok a, st₁) ∧ f a st₁ = (.ok b, st₂) := by
  unfold M.bind at h
  rcases hres : x st with ⟨res, st₁⟩
  rw [hres] at h
  cases res with
  | ok a => exact ⟨a, st₁, rfl, h⟩
  | err m => simp at h
  | panicRes m => simp at h

/-- `httpSend` (hence `http_get` and `http_post`) never touches `jwt`:
only the jar, the environment and the trace change. -/
theorem jwtPres_httpSend (url : Url) : JwtPres (httpSend url) := by
  intro st
  unfold httpSend
  split
  · rfl
  · split <;> rfl
  · split
    · dsimp only
      split <;> rfl
    · rfl

theorem jwtPres_http_get (url : Url) : JwtPres (http_get url) := jwtPres_httpSend url

theorem jwtPres_http_post (url : Url) (ps : List (String × String)) :
    JwtPres (http_post url ps) := jwtPres_httpSend url

/-- `auth_endpoint_uri` leaves the whole session untouched (it is a plain
`reqwest::get`, with no access to the `Authorization` struct). -/
theorem sessPres_auth_endpoint_uri : ∀ st : St, ((auth_endpoint_uri st).2).sess = st.sess := by
  intro st
  unfold auth_endpoint_uri
  split
  · rfl
  · rfl
  · split <;> rfl

theorem jwtPres_auth_endpoint_uri : JwtPres auth_endpoint_uri := by
  intro st
  rw [sessPres_auth_endpoint_uri st]

theorem jwtPres_auth_login_info : JwtPres auth_login_info := by
  unfold auth_login_info
  refine jwtPres_bind jwtPres_auth_endpoint_uri fun u => ?_
  refine jwtPres_bind (jwtPres_http_get u) fun r1 => ?_
  refine jwtPres_bind (jwtPres_liftE _) fun su => ?_
  refine jwtPres_bind (jwtPres_http_get su) fun r2 => ?_
  cases r2.scrape <;> first | exact jwtPres_err _ | exact jwtPres_pure _

/-- Every `Err` exit of `handle_callback` happens before any mutation:
the state is returned unchanged. -/
theorem handle_callback_err (cb : Url) (st : St) (m : String) (st' : St)
    (h : handle_callback cb st = (.err m, st')) : st' = st := by
  unfold handle_callback at h
  split at h
  · exact (Prod.mk.injEq .. ▸ h).2.symm
  · split at h
    · exact (Prod.mk.injEq .. ▸ h).2.symm
    · split at h
      · simp at h
      · dsimp only at h
        split at h
        · simp at h
        · simp at h

theorem jwtErrPres_handle_callback (cb : Url) : JwtErrPres (handle_callback cb) := by
  intro st m st' h
  rw [handle_callback_err cb st m st' h]

/-- A successful `handle_callback` ends with `jwt` set and the jar pruned
to exactly the `idsrv` cookie. -/
theorem handle_callback_ok (cb : Url) (st : St) (b : Bool) (st' : St)
    (h : handle_callback cb st = (.ok b, st')) :
    ∃ tok idv, st'.sess.jwt = some tok ∧ st'.sess.cookies = [("idsrv", idv)] := by
  unfold handle_callback at h
  split at h
  · simp at h
  · split at h
    · simp at h
    · split at h
      · simp at h
      · dsimp only at h
        split at h
        · simp at h
        · obtain ⟨_, h2⟩ := Prod.mk.injEq .. ▸ h
          subst h2
          exact ⟨_, _, rfl, rfl⟩

/-! ## Concrete environments used by witnesses and counterexamples -/

/-- A scraped login page: anti-forgery token plus submit URL. -/
def liOK : LoginInfo :=
  { antiForgery := { name := "tok", value := "t1" }, loginUrl := "/account/login" }

/-- A discovery response carrying a parseable `authorization_endpoint`. -/
def respDisc : Response :=
  { status := 200, location := .absent, setCookies := [],
    discovery := .endpoint { raw := "https://idp/auth", fragment := none }, scrape := .textFail }

/-- The authorization redirect to the login page; sets the `idsrv` cookie. -/
def respRedir1 : Response :=
  { status := 302, location := .url { raw := "https://idp/login-page", fragment := none },
    setCookies := [.text "idsrv=sess1"], discovery := .badJson, scrape := .textFail }

/-- The rendered login page with its `modelJson` blob. -/
def respLoginPage : Response :=
  { status := 200, location := .absent, setCookies := [], discovery := .badJson,
    scrape := .info liOK }

/-- The redirect answering the credential POST. -/
def respPostRedir : Response :=
  { status := 302, location := .url { raw := "https://idp/consent", fragment := none },
    setCookies := [], discovery := .badJson, scrape := .textFail }

/-- The final redirect to the callback URL carrying the token fragment. -/
def respFinal : Response :=
  { status := 302,
    location := .url { raw := "https://app/cb", fragment := some "id_token=JWT123&state=s" },
    setCookies := [], discovery := .badJson, scrape := .textFail }

/-- A non-redirect (200) answer to the credential POST. -/
def resp200 : Response :=
  { status := 200, location := .absent, setCookies := [], discovery := .badJson,
    scrape := .textFail }

/-- A response whose `Set-Cookie` value does not parse as `name=value`. -/
def respBadCookie : Response :=
  { status := 302, location := .absent, setCookies := [.text "nocookie"],
    discovery := .badJson, scrape := .textFail }

/-- A response whose `Set-Cookie` value is not valid UTF-8. -/
def respBadBytes : Response :=
  { status := 302, location := .absent, setCookies := [.badBytes],
    discovery := .badJson, scrape := .textFail }

/-- Environment of a full successful login. -/
def envOK : List Exchange :=
  [.respond respDisc, .respond respRedir1, .respond respLoginPage,
   .respond respPostRedir, .respond respFinal]

/-- Fresh session at the start of a successful login. -/
def stStart : St := { sess := Session.new, env := envOK, trace := [] }

/-- Authenticated session about to renew successfully. -/
def stRenew : St :=
  { sess := { jwt := some "OLD", cookies := [("idsrv", "sess1")] },
    env := [.respond respDisc, .respond respFinal], trace := [] }

/-- Authenticated session whose jar lacks `idsrv`, about to renew. -/
def stNoIdsrv : St :=
  { sess := { jwt := some "OLD", cookies := [("a", "b")] },
    env := [.respond respDisc, .respond respFinal], trace := [] }

/-- Fresh session with an empty environment. -/
def stFresh : St := { sess := Session.new, env := [], trace := [] }

/-- Fresh session whose login run dies on a client-build failure right
after discovery. -/
def stErrLogin : St :=
  { sess := Session.new, env := [.respond respDisc, .clientFail], trace := [] }

/-- Authenticated session whose renew run receives an unparseable cookie. -/
def stC8 : St :=
  { sess := { jwt := some "T", cookies := [] },
    env := [.respond respDisc, .respond respBadCookie], trace := [] }

/-- Fresh session whose login run reaches the credential POST and gets a
200 back. -/
def stC5 : St :=
  { sess := Session.new,
    env := [.respond respDisc, .respond respRedir1, .respond respLoginPage,
            .respond resp200], trace := [] }

/-- A callback URL whose fragment decodes but carries no `id_token`. -/
def cbNoTok : Url := { raw := "cb", fragment := some "state=xyz" }

/-- A callback URL with no fragment at all. -/
def cbNoFrag : Url := { raw := "cb", fragment := none }

/-- A callback URL carrying the claim C2 fragment. -/
def cbC2 : Url := { raw := "cb", fragment := some "id_token=ABC&state=xyz" }

/-- Session state used to exercise `handle_callback` directly. -/
def stCb : St :=
  { sess := { jwt := none, cookies := [("foo", "bar"), ("idsrv", "sess1")] },
    env := [], trace := [] }

/-! ## Claim theorems -/

/-- Claim C2: with `idsrv=sess1` anywhere in the jar, `handle_callback` on
a URL whose fragment is `id_token=ABC&state=xyz` succeeds, sets the token
to `ABC`, and prunes the jar to exactly `{idsrv: sess1}`. -/
theorem claim_C2_callback_success : ∀ (st : St) (cb : Url),
    cb.fragment = some "id_token=ABC&state=xyz" →
    hmGet st.sess.cookies "idsrv" = some "sess1" →
    handle_callback cb st
      = (.ok true, { st with sess := { jwt := some "ABC", cookies := [("idsrv", "sess1")] } }) := by
  intro st cb hf hc
  have hp : parseFragment "id_token=ABC&state=xyz"
      = some [("id_token", "ABC"), ("state", "xyz")] := by decide
  have ht : hmGet [("id_token", "ABC"), ("state", "xyz")] "id_token" = some "ABC" := by decide
  unfold handle_callback
  rw [hf]
  simp only [hp, ht]
  rw [hc]

/-- Witness for C2 at a concrete session holding `foo=bar` and
`idsrv=sess1`. -/
theorem claim_C2_witness :
    handle_callback cbC2 stCb
      = (.ok true,
         { stCb with sess := { jwt := some "ABC", cookies := [("idsrv", "sess1")] } }) :=
  claim_C2_callback_success stCb cbC2 (by decide) (by decide)

/-- Claim C6: cookie-jar merging is an upsert with last-write-wins in
header arrival order: merging `a=1`, `b=2`, `a=3` into any starting jar
yields `a = 3` and `b = 2`. -/
theorem claim_C6_merge_last_write_wins : ∀ jar : List (String × String),
    ∃ jar', mergeCookies jar ["a=1", "b=2", "a=3"] = some jar' ∧
      hmGet jar' "a" = some "3" ∧ hmGet jar' "b" = some "2" := by
  intro jar
  refine ⟨hmInsert (hmInsert (hmInsert jar "a" "1") "b" "2") "a" "3", ?_, ?_, ?_⟩
  · have h1 : parseCookiePair "a=1" = some ("a", "1") := by decide
    have h2 : parseCookiePair "b=2" = some ("b", "2") := by decide
    have h3 : parseCookiePair "a=3" = some ("a", "3") := by decide
    simp [mergeCookies, add_cookie, h1, h2, h3]
  · exact hmGet_hmInsert_self ..
  · rw [hmGet_hmInsert_ne _ _ _ _ (by decide)]
    exact hmGet_hmInsert_self ..

/-- Claim C9: `renew()` on a session that never authenticated fails
immediately with the precondition error, consuming no exchange, emitting
no request, and leaving the whole state (session, environment, trace)
unchanged. -/
theorem claim_C9_renew_precondition : ∀ st : St, st.sess.jwt = none →
    renew st = (.err "Please login first.", st) := by
  intro st h
  unfold renew
  rw [h]
  simp

/-- Witness for C9 on a fresh session. -/
theorem claim_C9_witness : renew stFresh = (.err "Please login first.", stFresh) :=
  claim_C9_renew_precondition stFresh rfl

/-- Claim C10: the discovery fetch (`auth_endpoint_uri`, the discovery
step of both `login` and `renew`) bypasses the session entirely: whatever
the environment answers, the session (jar included) is unchanged — so any
`Set-Cookie` on the discovery response is discarded — and every request it
emits carries no `Cookie` header. -/
theorem claim_C10_discovery_bypasses_jar : ∀ (st : St) (res : RunRes Url) (st' : St),
    auth_endpoint_uri st = (res, st') →
    st'.sess = st.sess ∧
      ∃ new, st'.trace = st.trace ++ new ∧ ∀ req ∈ new, req.cookieHdr = none := by
  intro st res st' h
  unfold auth_endpoint_uri at h
  split at h
  · obtain ⟨-, h2⟩ := Prod.mk.injEq .. ▸ h
    subst h2
    exact ⟨rfl, [], by simp, by simp⟩
  · obtain ⟨-, h2⟩ := Prod.mk.injEq .. ▸ h
    subst h2
    exact ⟨rfl, [{ url := discoveryUrl, cookieHdr := none }], by simp [pushTrace], by simp⟩
  · dsimp only at h
    split at h <;>
    · obtain ⟨-, h2⟩ := Prod.mk.injEq .. ▸ h
      subst h2
      exact ⟨rfl, [{ url := discoveryUrl, cookieHdr := none }], by simp [pushTrace], by simp⟩

/-- Witness for C10 on a concrete discovery exchange. -/
theorem claim_C10_witness :
    ((auth_endpoint_uri stRenew).2).sess = stRenew.sess ∧
      ∃ new, ((auth_endpoint_uri stRenew).2).trace = stRenew.trace ++ new ∧
        ∀ req ∈ new, req.cookieHdr = none :=
  claim_C10_discovery_bypasses_jar stRenew
    (auth_endpoint_uri stRenew).1 (auth_endpoint_uri stRenew).2 rfl

/-- Claim C4 fails on the code: on a decodable fragment with no
`id_token` entry (`state=xyz`), `handle_callback` does not return a
failure result — the map index panics (`no entry found for key`),
crashing the process. -/
theorem claim_C4_counterexample :
    (handle_callback cbNoTok stFresh).1 = .panicRes "no entry found for key" ∧
    ∀ (m : String) (stx : St), handle_callback cbNoTok stFresh ≠ (.err m, stx) := by
  have he : handle_callback cbNoTok stFresh = (.panicRes "no entry found for key", stFresh) := by
    decide
  refine ⟨by rw [he], ?_⟩
  intro m stx h
  rw [he] at h
  simp at h

/-- Claim C4 as amended: an absent fragment yields the failure result
`Invalid callback` with the state (hence the token) untouched; a present
fragment always decodes (the decoder is total), and a decoded mapping
without `id_token` makes `handle_callback` panic — a process crash, not a
returned failure — again before the token is touched. -/
theorem claim_C4_amended : ∀ (st : St) (cb : Url),
    (cb.fragment = none → handle_callback cb st = (.err "Invalid callback", st)) ∧
    (∀ frag m, cb.fragment = some frag → parseFragment frag = some m →
      hmGet m "id_token" = none →
      handle_callback cb st = (.panicRes "no entry found for key", st)) := by
  intro st cb
  constructor
  · intro hf
    unfold handle_callback
    rw [hf]
  · intro frag m hf hp ht
    unfold handle_callback
    rw [hf]
    simp only [hp, ht]

/-- Witness for the amended C4: both branches at concrete callback
URLs. -/
theorem claim_C4_witness :
    handle_callback cbNoFrag stCb = (.err "Invalid callback", stCb) ∧
    handle_callback cbNoTok stCb = (.panicRes "no entry found for key", stCb) :=
  ⟨(claim_C4_amended stCb cbNoFrag).1 rfl,
   (claim_C4_amended stCb cbNoTok).2 "state=xyz" [("state", "xyz")]
     rfl (by decide) (by decide)⟩

/-- Claim C8 fails on the code: a `Set-Cookie` value that is not a cookie
assignment (`nocookie`) makes the exchange panic
(`expect("Unable to parse cookie")`), crashing the process — the caller of
`renew()` never receives a failure result. -/
theorem claim_C8_counterexample :
    (renew stC8).1 = .panicRes "Unable to parse cookie" ∧
    ∀ (m : String) (stx : St), renew stC8 ≠ (.err m, stx) := by
  have he : (renew stC8).1 = .panicRes "Unable to parse cookie" := by decide
  refine ⟨he, ?_⟩
  intro m stx h
  have : (renew stC8).1 = .err m := by rw [h]
  rw [he] at this
  simp at this

/-- Claim C8 as amended: in the exchange layer, a `Set-Cookie` value that
does not parse as a cookie assignment panics the process, while only a
non-UTF-8 `Set-Cookie` value produces the failure result
`Unable to read set-cookie header` that fails the triggering exchange. -/
theorem claim_C8_amended : ∀ (url : Url) (st : St) (r : Response) (rest : List Exchange),
    st.env = .respond r :: rest →
    headerOk (generate_cookie_header st.sess.cookies) = true →
    (∀ h, r.setCookies = [SetCookieH.text h] → parseCookiePair h = none →
      (httpSend url st).1 = .panicRes "Unable to parse cookie") ∧
    (r.setCookies = [SetCookieH.badBytes] →
      (httpSend url st).1 = .err "Unable to read set-cookie header") := by
  intro url st r rest henv hok
  unfold httpSend
  rw [henv]
  constructor
  · intro h hsc hpc
    simp only [popEnv, hok, if_true]
    rw [hsc]
    simp only [applyCookies, add_cookie, hpc]
  · intro hsc
    simp only [popEnv, hok, if_true]
    rw [hsc]
    simp only [applyCookies]

/-- Witness for the amended C8 at concrete malformed-cookie responses. -/
theorem claim_C8_witness :
    (httpSend cbNoFrag { sess := Session.new, env := [.respond respBadCookie], trace := [] }).1
      = .panicRes "Unable to parse cookie" ∧
    (httpSend cbNoFrag { sess := Session.new, env := [.respond respBadBytes], trace := [] }).1
      = .err "Unable to read set-cookie header" :=
  ⟨(claim_C8_amended cbNoFrag _ respBadCookie [] rfl (by decide)).1 "nocookie" rfl (by decide),
   (claim_C8_amended cbNoFrag _ respBadBytes [] rfl (by decide)).2 rfl⟩

/-- Claim C1: after any successful `login` or `renew`, the session's
token is `Some` and the jar contains the `idsrv` cookie. -/
theorem claim_C1_invariant_after_success : ∀ (u p : String) (st : St) (b : Bool) (st' : St),
    (login u p st = (.ok b, st') →
      (st'.sess.jwt).isSome = true ∧ (hmGet st'.sess.cookies "idsrv").isSome = true) ∧
    (renew st = (.ok b, st') →
      (st'.sess.jwt).isSome = true ∧ (hmGet st'.sess.cookies "idsrv").isSome = true) := by
  intro u p st b st'
  have post : ∀ (cb : Url) (stx : St), handle_callback cb stx = (.ok b, st') →
      (st'.sess.jwt).isSome = true ∧ (hmGet st'.sess.cookies "idsrv").isSome = true := by
    intro cb stx h
    obtain ⟨tok, idv, hj, hc⟩ := handle_callback_ok cb stx b st' h
    rw [hj, hc]
    simp [hmGet]
  constructor
  · intro h
    unfold login at h
    obtain ⟨li, st₁, h1, h⟩ := M.bind_eq_ok h
    obtain ⟨first, st₂, h2, h⟩ := M.bind_eq_ok h
    by_cases hred : isRedirection first.status = true
    · rw [if_pos hred] at h
      obtain ⟨su, st₃, h3, h⟩ := M.bind_eq_ok h
      obtain ⟨r2, st₄, h4, h⟩ := M.bind_eq_ok h
      obtain ⟨cb, st₅, h5, h⟩ := M.bind_eq_ok h
      exact post cb st₅ h
    · rw [if_neg hred] at h
      exact absurd h (by simp [M.err])
  · intro h
    unfold renew at h
    split at h
    · simp at h
    · obtain ⟨au, st₁, h1, h⟩ := M.bind_eq_ok h
      obtain ⟨r, st₂, h2, h⟩ := M.bind_eq_ok h
      obtain ⟨cb, st₃, h3, h⟩ := M.bind_eq_ok h
      exact post cb st₃ h

/-- Witness for C1: a concrete successful login and a concrete successful
renewal. -/
theorem claim_C1_witness :
    (((login "u" "p" stStart).2).sess.jwt.isSome = true ∧
      (hmGet ((login "u" "p" stStart).2).sess.cookies "idsrv").isSome = true) ∧
    (((renew stRenew).2).sess.jwt.isSome = true ∧
      (hmGet ((renew stRenew).2).sess.cookies "idsrv").isSome = true) :=
  ⟨(claim_C1_invariant_after_success "u" "p" stStart true (login "u" "p" stStart).2).1
      (by decide),
   (claim_C1_invariant_after_success "u" "p" stRenew true (renew stRenew).2).2
      (by decide)⟩

/-- Claim C3 fails on the code: when the jar lacks `idsrv` at the pruning
step, the call fails (panics), yet the token has already been overwritten
with the new `id_token` — a partial mutation of `token` on a failing
call. -/
theorem claim_C3_counterexample :
    (renew stNoIdsrv).1 = .panicRes "no entry found for key" ∧
    (renew stNoIdsrv).2.sess.jwt ≠ stNoIdsrv.sess.jwt := by
  constructor
  · decide
  · decide

/-- Claim C3 as amended: every `login`/`renew` call that returns an error
result leaves the token exactly as it was; the `idsrv`-missing case is
instead a panic that happens after the token has been overwritten. -/
theorem claim_C3_amended : ∀ (u p : String) (st : St) (m : String) (st' : St),
    (login u p st = (.err m, st') → st'.sess.jwt = st.sess.jwt) ∧
    (renew st = (.err m, st') → st'.sess.jwt = st.sess.jwt) := by
  have hlogin : ∀ u p, JwtErrPres (login u p) := by
    intro u p
    unfold login
    refine jwtErrPres_bind jwtPres_auth_login_info fun li => ?_
    refine jwtErrPres_bind (jwtPres_http_post _ _) fun first => ?_
    by_cases hred : isRedirection first.status = true
    · rw [if_pos hred]
      refine jwtErrPres_bind (jwtPres_liftE _) fun su => ?_
      refine jwtErrPres_bind (jwtPres_http_get _) fun r2 => ?_
      refine jwtErrPres_bind (jwtPres_liftE _) fun cb => ?_
      exact jwtErrPres_handle_callback cb
    · rw [if_neg hred]
      exact jwtErrPres_err _
  have hrenew : JwtErrPres renew := by
    intro st m st' h
    unfold renew at h
    split at h
    · obtain ⟨-, h2⟩ := Prod.mk.injEq .. ▸ h
      rw [← h2]
    · exact (jwtErrPres_bind jwtPres_auth_endpoint_uri fun au =>
        jwtErrPres_bind (jwtPres_http_get au) fun r =>
        jwtErrPres_bind (jwtPres_liftE _) fun cb =>
        jwtErrPres_handle_callback cb) st m st' h
  intro u p st m st'
  exact ⟨fun h => hlogin u p st m st' h, fun h => hrenew st m st' h⟩

/-- Witness for the amended C3: a login failing on client build after
discovery and a renew failing its precondition both keep the token. -/
theorem claim_C3_witness :
    ((login "u" "p" stErrLogin).2).sess.jwt = stErrLogin.sess.jwt ∧
    ((renew stFresh).2).sess.jwt = stFresh.sess.jwt :=
  ⟨(claim_C3_amended "u" "p" stErrLogin "Unable to create HTTP client"
      (login "u" "p" stErrLogin).2).1 (by decide),
   (claim_C3_amended "u" "p" stFresh "Please login first." (renew stFresh).2).2 (by decide)⟩

/-- Claim C5: a login whose credential POST is answered with a
non-redirect status fails with `Invalid credentials` and the token stays
`None`. -/
theorem claim_C5_invalid_credentials : ∀ (u p : String) (st : St) (li : LoginInfo)
    (st₁ : St) (first : Response) (st₂ : St),
    st.sess.jwt = none →
    auth_login_info st = (.ok li, st₁) →
    http_post (full_auth_url li.loginUrl) (build_login_params li.antiForgery u p) st₁
      = (.ok first, st₂) →
    isRedirection first.status = false →
    login u p st = (.err "Invalid credentials", st₂) ∧ st₂.sess.jwt = none := by
  intro u p st li st₁ first st₂ hj h1 h2 h3
  have e1 : st₁.sess.jwt = st.sess.jwt := by
    have hp := jwtPres_auth_login_info st
    rw [h1] at hp
    exact hp
  have e2 : st₂.sess.jwt = st₁.sess.jwt := by
    have hp := jwtPres_http_post (full_auth_url li.loginUrl)
      (build_login_params li.antiForgery u p) st₁
    rw [h2] at hp
    exact hp
  constructor
  · simp only [login, M.bind, h1, h2, h3, M.err, Bool.false_eq_true, if_false]
  · rw [e2, e1, hj]

/-- Witness for C5: a concrete run whose POST comes back with status
200. -/
theorem claim_C5_witness :
    login "u" "p" stC5
      = (.err "Invalid credentials",
         (http_post (full_auth_url liOK.loginUrl) (build_login_params liOK.antiForgery "u" "p")
           (auth_login_info stC5).2).2) ∧
    ((http_post (full_auth_url liOK.loginUrl) (build_login_params liOK.antiForgery "u" "p")
        (auth_login_info stC5).2).2).sess.jwt = none :=
  claim_C5_invalid_credentials "u" "p" stC5 liOK (auth_login_info stC5).2 resp200
    (http_post (full_auth_url liOK.loginUrl) (build_login_params liOK.antiForgery "u" "p")
      (auth_login_info stC5).2).2
    rfl (by decide) (by decide) (by decide)

/-! ## Round-trip lemmas for the rendered `Cookie` header (claim C7) -/

theorem asString_data (s : String) : s.data.asString = s := rfl

theorem data_asString (l : List Char) : l.asString.data = l := rfl

theorem splitFirst_append (sep : Char) (k v : List Char) (hk : sep ∉ k) :
    splitFirst sep (k ++ sep :: v) = some (k, v) := by
  induction k with
  | nil => simp [splitFirst]
  | cons c k' ih =>
    have hc : c ≠ sep := fun e => hk (e ▸ List.mem_cons_self c k')
    have ih' := ih fun hm => hk (List.mem_cons_of_mem c hm)
    simp [splitFirst, hc, ih']

theorem hasSemiSp_chunk (k v : List Char) (hk : ';' ∉ k) (hv : hasSemiSp v = false) :
    hasSemiSp (k ++ '=' :: v) = false := by
  induction k with
  | nil => simp [hasSemiSp, hv]
  | cons c k' ih =>
    have hc : c ≠ ';' := fun e => hk (e ▸ List.mem_cons_self c k')
    have ih' := ih fun hm => hk (List.mem_cons_of_mem c hm)
    simp [hasSemiSp, hc, ih']

theorem reparseGo_chunk (a : List Char) : ∀ acc rest : List Char, hasSemiSp a = false →
    reparseGo acc (a ++ ';' :: ' ' :: rest) = chunkPair (acc ++ a) ++ reparseGo [] rest := by
  induction a with
  | nil =>
    intro acc rest _
    simp [reparseGo]
  | cons c a' ih =>
    intro acc rest h
    cases a' with
    | nil =>
      have hc : ¬(c = ';' ∧ (';' : Char) = ' ') := by simp
      simp only [List.cons_append, List.nil_append, reparseGo, if_neg hc]
      simp [reparseGo]
    | cons d a'' =>
      rw [hasSemiSp, Bool.or_eq_false_iff] at h
      obtain ⟨h1, h2⟩ := h
      have hcd : ¬(c = ';' ∧ d = ' ') := by
        intro hx
        rw [hx.1, hx.2] at h1
        simp at h1
      simp only [List.cons_append, reparseGo, if_neg hcd]
      have h3 := ih (acc ++ [c]) rest h2
      rw [List.cons_append] at h3
      show reparseGo (acc ++ [c]) (d :: (a'' ++ ';' :: ' ' :: rest))
        = chunkPair (acc ++ c :: d :: a'') ++ reparseGo [] rest
      rw [h3, List.append_assoc]
      rfl

/-- Claim C7 fails on the code: a jar whose value itself contains the
separator (`a ↦ "1; b=2"`) renders to `a=1; b=2; `, which re-parses as the
two pairs `a=1`, `b=2`, not the original jar. -/
theorem claim_C7_counterexample :
    reparsePairs (generate_cookie_header [("a", "1; b=2")]) = [("a", "1"), ("b", "2")] ∧
    reparsePairs (generate_cookie_header [("a", "1; b=2")]) ≠ [("a", "1; b=2")] := by
  constructor
  · decide
  · decide

/-- Claim C7 as amended: for every jar whose names contain neither `;`
nor `=` and whose values do not contain the separator sequence `"; "`
(every jar `add_cookie` can build is of this shape), re-parsing the
rendered `Cookie` header value recovers exactly the jar's name/value
pairs. -/
theorem claim_C7_roundtrip : ∀ jar : List (String × String),
    (∀ p ∈ jar, ';' ∉ p.1.data ∧ '=' ∉ p.1.data ∧ hasSemiSp p.2.data = false) →
    reparsePairs (generate_cookie_header jar) = jar := by
  intro jar
  induction jar with
  | nil => intro _; rfl
  | cons p rest ih =>
    intro h
    obtain ⟨k, v⟩ := p
    obtain ⟨hk1, hk2, hv⟩ := h (k, v) (List.mem_cons_self _ _)
    have hrest := fun q hq => h q (List.mem_cons_of_mem _ hq)
    have hch : hasSemiSp (k.data ++ '=' :: v.data) = false := hasSemiSp_chunk _ _ hk1 hv
    have hrec := ih hrest
    unfold reparsePairs generate_cookie_header at hrec ⊢
    rw [data_asString] at hrec ⊢
    rw [List.foldr_cons]
    dsimp only
    have hstep := reparseGo_chunk (k.data ++ '=' :: v.data) []
      (List.foldr (fun p acc => p.1.data ++ '=' :: p.2.data ++ ';' :: ' ' :: acc) [] rest) hch
    simp only [List.append_assoc, List.cons_append, List.nil_append] at hstep hrec
    simp only [List.append_assoc, List.cons_append, List.nil_append]
    rw [hstep]
    have hcp : chunkPair (k.data ++ '=' :: v.data) = [(k, v)] := by
      unfold chunkPair
      rw [splitFirst_append _ _ _ hk2]
      dsimp only
      rw [asString_data, asString_data]
    rw [hcp, hrec]
    rfl

/-- Witness for the amended C7 on a concrete well-formed jar. -/
theorem claim_C7_witness :
    reparsePairs (generate_cookie_header [("idsrv", "sess1"), ("x", "y")])
      = [("idsrv", "sess1"), ("x", "y")] :=
  claim_C7_roundtrip [("idsrv", "sess1"), ("x", "y")] (by decide)

end Fluminurs
